import Mathlib

/-!
Verification of the Civic-Eye trust-score engine (`src/app.py`).

The engine is embedded shallowly:
* Python floats become exact rationals (`ℚ`); Python ints become `ℤ`/`ℕ`.
* `str.lower()` becomes `lowerStr` (ASCII lowercasing of the character list).
* `round(x, 2)` becomes `pyRound2` (round half to even at two decimals).
* Each sub-analyzer's `try/except` block is modelled by an `Option`-shaped
  input (or an explicit failure constructor): `none`/failure is the exception
  path, which the code maps to the documented neutral constant.
* The OpenCV / PIL library calls that the analyzers delegate to (JPEG
  recompression, Canny edge detection, contour extraction) are opaque
  parameters of the embedding; the single library fact the spec relies on
  (a uniform image produces no edges and no contours) is carried as a proof
  field of the backend structure.

The authoritative severity/priority scheme is the one wired into the HTTP
endpoint, `calculate_severity_and_priority` in `src/app.py` (the variant in
`src/severity.py` is an unreferenced prototype).
-/

namespace CivicEye

/-- Python `str.lower()` restricted to its ASCII action, applied to the
string's character list (`Char.toLower` lowercases exactly `A`–`Z`). -/
def lowerStr (s : String) : String := ⟨s.data.map Char.toLower⟩

/-- Python `round(x, 2)`: round to two decimal places, ties to even,
computed exactly over `ℚ`. -/
def pyRound2 (x : ℚ) : ℚ :=
  let y : ℚ := 100 * x
  let f : ℤ := ⌊y⌋
  let r : ℚ := y - (f : ℚ)
  (if r < 1/2 then (f : ℚ)
   else if 1/2 < r then ((f + 1 : ℤ) : ℚ)
   else if f % 2 = 0 then (f : ℚ) else ((f + 1 : ℤ) : ℚ)) / 100

/-- `issue_weights.get(key, 1.0)` from `calculate_trust_score` in
`src/app.py` (lines 180–190): the issue-type multiplier table with
default `1.0`.  The argument is the already-lowercased issue type. -/
def issue_weights (s : String) : ℚ :=
  if s = "accident" then 105/100
  else if s = "fire" then 108/100
  else if s = "road_block" then 102/100
  else if s = "pothole" then 1
  else if s = "garbage" then 98/100
  else if s = "water_leak" then 1
  else if s = "other" then 1
  else 1

/-- The result dictionary of `calculate_trust_score` in `src/app.py`
(lines 196–205): the final trust score together with the explanation
fields. -/
structure TrustResult where
  trust_score : ℚ
  ela_score : ℚ
  metadata_score : ℚ
  shadow_score : ℚ
  quality_score : ℚ
  issue_type_weight : ℚ
deriving DecidableEq, Repr

/-- `calculate_trust_score` from `src/app.py` (lines 160–205), taken at the
point where the four sub-analyzer scores have been computed: the weighted
combination, the issue-type multiplier, the clamp to `[0, 100]` and the
rounding to two decimals. -/
def calculate_trust_score (ela_score metadata_score shadow_score quality_score : ℚ)
    (issue_type : String) : TrustResult :=
  let trust_score : ℚ :=
    ela_score * (35/100) + metadata_score * (25/100) +
      shadow_score * (20/100) + quality_score * (20/100)
  let weight : ℚ := issue_weights (lowerStr issue_type)
  let trust_score : ℚ := trust_score * weight
  let trust_score : ℚ := max 0 (min 100 trust_score)
  { trust_score := pyRound2 trust_score
    ela_score := pyRound2 ela_score
    metadata_score := pyRound2 metadata_score
    shadow_score := pyRound2 shadow_score
    quality_score := pyRound2 quality_score
    issue_type_weight := weight }

/-- The aggregation formula exactly as the specification words it: the
issue-type multiplier table `accident: 1.05, fire: 1.08, road_block: 1.02,
pothole: 1.0, garbage: 0.98, water_leak: 1.0, other: 1.0`, default `1.0`
for unknown issue types (issue types are case-insensitive). -/
def multiplierSpec (issue_type : String) : ℚ :=
  if lowerStr issue_type = "accident" then 105/100
  else if lowerStr issue_type = "fire" then 108/100
  else if lowerStr issue_type = "road_block" then 102/100
  else if lowerStr issue_type = "pothole" then 1
  else if lowerStr issue_type = "garbage" then 98/100
  else if lowerStr issue_type = "water_leak" then 1
  else if lowerStr issue_type = "other" then 1
  else 1

/-- The specification's trust-score formula:
`round(clamp((0.35·ela + 0.25·metadata + 0.20·shadow + 0.20·quality) · m, 0, 100), 2)`. -/
def trustScoreSpec (ela metadata shadow quality : ℚ) (issue_type : String) : ℚ :=
  pyRound2 (max 0 (min 100
    ((35/100 * ela + 25/100 * metadata + 20/100 * shadow + 20/100 * quality) *
      multiplierSpec issue_type)))

/-- `severity_map.get(key, 40)` from `calculate_severity_and_priority` in
`src/app.py` (lines 211–221): base severity by issue type, default `40`.
The argument is the already-lowercased issue type. -/
def severity_map (s : String) : ℤ :=
  if s = "fire" then 95
  else if s = "accident" then 90
  else if s = "road_block" then 80
  else if s = "water_leak" then 70
  else if s = "pothole" then 60
  else if s = "garbage" then 50
  else if s = "other" then 40
  else 40

/-- The trust-score discount block of `calculate_severity_and_priority` in
`src/app.py` (lines 223–229). -/
def discountSeverity (trust_score : ℚ) (base_severity : ℤ) : ℤ :=
  if trust_score < 40 then max 20 (base_severity - 30)
  else if trust_score < 60 then max 30 (base_severity - 15)
  else if trust_score < 80 then max 40 (base_severity - 5)
  else base_severity

/-- `calculate_severity_and_priority` from `src/app.py` (lines 207–240):
base severity lookup, trust discount, clamp to `[0, 100]`, and the
three-tier priority bucketing. -/
def calculate_severity_and_priority (trust_score : ℚ) (issue_type : String) :
    ℤ × String :=
  let base_severity : ℤ := severity_map (lowerStr issue_type)
  let base_severity : ℤ := discountSeverity trust_score base_severity
  let base_severity : ℤ := max 0 (min 100 base_severity)
  let priority : String :=
    if base_severity ≥ 85 then "HIGH"
    else if base_severity ≥ 60 then "MEDIUM"
    else "LOW"
  (base_severity, priority)

/-- The known issue-type tags (`src/app.py`: keys of `issue_weights` and of
`severity_map`, which coincide). -/
def knownIssueTypes : List String :=
  ["accident", "fire", "road_block", "pothole", "garbage", "water_leak", "other"]

/-- Every base severity in the table (default included) is at least 40. -/
theorem severity_map_ge_40 (s : String) : 40 ≤ severity_map s := by
  unfold severity_map
  split_ifs <;> norm_num

/-- The trust-discount block is monotone in the trust score whenever the
incoming base severity is at least 40 (which the table guarantees). -/
theorem discountSeverity_mono {s : ℤ} (hs : 40 ≤ s) {t1 t2 : ℚ} (h : t1 ≤ t2) :
    discountSeverity t1 s ≤ discountSeverity t2 s := by
  unfold discountSeverity
  split_ifs <;> first | omega | linarith

/-- C1: for every quadruple of sub-scores and every issue-type string, the
aggregated trust score equals
`round(clamp((0.35·ela + 0.25·metadata + 0.20·shadow + 0.20·quality) · m, 0, 100), 2)`
where `m` is the issue-type multiplier (`accident: 1.05, fire: 1.08,
road_block: 1.02, pothole: 1.0, garbage: 0.98, water_leak: 1.0,
other: 1.0`, default `1.0` for unknown types). -/
theorem trust_score_matches_spec (ela metadata shadow quality : ℚ)
    (issue_type : String) :
    (calculate_trust_score ela metadata shadow quality issue_type).trust_score =
      trustScoreSpec ela metadata shadow quality issue_type := by
  simp only [calculate_trust_score, trustScoreSpec, multiplierSpec, issue_weights]
  split_ifs <;>
    exact congrArg (fun x : ℚ => pyRound2 (max 0 (min 100 x))) (by ring)

/-- C2: the discounted severity before the final clamp is
`max(20, s − 30)` for trust below 40, `max(30, s − 15)` for trust in
`[40, 60)`, `max(40, s − 5)` for trust in `[60, 80)`, and `s` unchanged for
trust at least 80; in particular issue type `garbage` with trust score 35
yields base severity 20 and priority `LOW`. -/
theorem discount_brackets (issue_type : String) (t : ℚ) :
    (t < 40 → discountSeverity t (severity_map (lowerStr issue_type))
        = max 20 (severity_map (lowerStr issue_type) - 30)) ∧
    (40 ≤ t → t < 60 → discountSeverity t (severity_map (lowerStr issue_type))
        = max 30 (severity_map (lowerStr issue_type) - 15)) ∧
    (60 ≤ t → t < 80 → discountSeverity t (severity_map (lowerStr issue_type))
        = max 40 (severity_map (lowerStr issue_type) - 5)) ∧
    (80 ≤ t → discountSeverity t (severity_map (lowerStr issue_type))
        = severity_map (lowerStr issue_type)) ∧
    calculate_severity_and_priority 35 "garbage" = (20, "LOW") := by
  refine ⟨?_, ?_, ?_, ?_, by decide⟩ <;>
    · intros
      unfold discountSeverity
      split_ifs <;> first | rfl | linarith

/-- Witness for C2 at trust score 35 (bracket `t < 40`) and the end-to-end
`garbage`/35 example. -/
theorem discount_brackets_witness :
    discountSeverity 35 (severity_map (lowerStr "fire"))
        = max 20 (severity_map (lowerStr "fire") - 30) ∧
    calculate_severity_and_priority 35 "garbage" = (20, "LOW") :=
  ⟨(discount_brackets "fire" 35).1 (by decide),
   (discount_brackets "fire" 35).2.2.2.2⟩

/-- C3: the base severity before trust discounting is `fire: 95,
accident: 90, road_block: 80, water_leak: 70, pothole: 60, garbage: 50,
other: 40`, with default 40 for any issue type outside the table; the
lookup key is the lowercased issue type. -/
theorem base_severity_table (issue_type : String) :
    (lowerStr issue_type = "fire" → severity_map (lowerStr issue_type) = 95) ∧
    (lowerStr issue_type = "accident" → severity_map (lowerStr issue_type) = 90) ∧
    (lowerStr issue_type = "road_block" → severity_map (lowerStr issue_type) = 80) ∧
    (lowerStr issue_type = "water_leak" → severity_map (lowerStr issue_type) = 70) ∧
    (lowerStr issue_type = "pothole" → severity_map (lowerStr issue_type) = 60) ∧
    (lowerStr issue_type = "garbage" → severity_map (lowerStr issue_type) = 50) ∧
    (lowerStr issue_type = "other" → severity_map (lowerStr issue_type) = 40) ∧
    (lowerStr issue_type ∉ knownIssueTypes →
      severity_map (lowerStr issue_type) = 40) := by
  refine ⟨?_, ?_, ?_, ?_, ?_, ?_, ?_, ?_⟩ <;> intro h
  · rw [h]; decide
  · rw [h]; decide
  · rw [h]; decide
  · rw [h]; decide
  · rw [h]; decide
  · rw [h]; decide
  · rw [h]; decide
  · simp only [knownIssueTypes, List.mem_cons, List.mem_singleton, not_or] at h
    obtain ⟨h1, h2, h3, h4, h5, h6, h7⟩ := h
    simp [severity_map, h1, h2, h3, h4, h5, h6, h7]

/-- Witness for C3: a cased variant of a known type and an unknown type. -/
theorem base_severity_table_witness :
    severity_map (lowerStr "FIRE") = 95 ∧ severity_map (lowerStr "graffiti") = 40 :=
  ⟨(base_severity_table "FIRE").1 (by decide),
   (base_severity_table "graffiti").2.2.2.2.2.2.2 (by decide)⟩

/-- C4: the returned priority is always one of `LOW`, `MEDIUM`, `HIGH`,
assigned by `HIGH` iff final severity ≥ 85 and `MEDIUM` iff it is in
`[60, 85)`; the final base severity always lies in `[0, 100]`. -/
theorem severity_priority_range (t : ℚ) (issue_type : String) :
    0 ≤ (calculate_severity_and_priority t issue_type).1 ∧
    (calculate_severity_and_priority t issue_type).1 ≤ 100 ∧
    (calculate_severity_and_priority t issue_type).2 =
      (if (calculate_severity_and_priority t issue_type).1 ≥ 85 then "HIGH"
       else if (calculate_severity_and_priority t issue_type).1 ≥ 60 then "MEDIUM"
       else "LOW") ∧
    ((calculate_severity_and_priority t issue_type).2 = "LOW" ∨
     (calculate_severity_and_priority t issue_type).2 = "MEDIUM" ∨
     (calculate_severity_and_priority t issue_type).2 = "HIGH") := by
  simp only [calculate_severity_and_priority]
  refine ⟨by omega, by omega, by trivial, ?_⟩
  split_ifs <;> simp

/-- C5: for a fixed issue type, the final base severity is non-decreasing
in the trust score. -/
theorem base_severity_monotone (issue_type : String) {t1 t2 : ℚ}
    (h : t1 ≤ t2) :
    (calculate_severity_and_priority t1 issue_type).1 ≤
      (calculate_severity_and_priority t2 issue_type).1 := by
  simp only [calculate_severity_and_priority]
  have hd := discountSeverity_mono (severity_map_ge_40 (lowerStr issue_type)) h
  omega

/-- Witness for C5 at trust scores 30 ≤ 90 on issue type `fire`. -/
theorem base_severity_monotone_witness :
    (calculate_severity_and_priority 30 "fire").1 ≤
      (calculate_severity_and_priority 90 "fire").1 :=
  base_severity_monotone "fire" (by decide)

/-! ### ELA analyzer (`perform_ela_analysis`, `src/app.py` lines 18–51)

An RGB image is a flat list of channel triples (byte intensities 0–255);
the spatial arrangement is irrelevant to the per-pixel operations below.
The quality-90 JPEG recompression is an opaque codec parameter; `none`
models any exception inside the `try` block. -/

/-- One RGB pixel: byte intensities per channel. -/
abbrev RGB : Type := ℕ × ℕ × ℕ

/-- An RGB image as its pixel list. -/
abbrev RGBImage : Type := List RGB

/-- Absolute difference of two byte intensities (`ImageChops.difference`). -/
def channelDiff (a b : ℕ) : ℕ := max a b - min a b

/-- `ImageChops.difference`: per-pixel, per-channel absolute difference. -/
def diffImage (a b : RGBImage) : RGBImage :=
  List.zipWith
    (fun p q => (channelDiff p.1 q.1, channelDiff p.2.1 q.2.1, channelDiff p.2.2 q.2.2))
    a b

/-- `ImageEnhance.Brightness(...).enhance(10)`: scale every channel by 10,
clipped to the maximum byte intensity 255. -/
def enhance10 (img : RGBImage) : RGBImage :=
  img.map (fun p => (min 255 (10 * p.1), min 255 (10 * p.2.1), min 255 (10 * p.2.2)))

/-- `max([ex[1] for ex in image.getextrema()])`: the maximum channel value
over all pixels and channels. -/
def extremumOf (img : RGBImage) : ℕ :=
  (img.map (fun p => max p.1 (max p.2.1 p.2.2))).foldr max 0

/-- `perform_ela_analysis` from `src/app.py` (lines 18–51): diff the image
against its quality-90 JPEG recompression, amplify 10×, take the extremum,
and map it to a score by `max(0, min(100, 100 - max_diff / 2.55))`; any
failure inside the analysis (modelled by the codec returning `none`)
yields the neutral score 50. -/
def perform_ela_analysis (img : RGBImage) (recompressQ90 : RGBImage → Option RGBImage) :
    ℚ :=
  match recompressQ90 img with
  | none => 50
  | some recompressed =>
      let max_diff : ℕ := extremumOf (enhance10 (diffImage img recompressed))
      max 0 (min 100 (100 - (max_diff : ℚ) / (51/20)))

/-! ### Metadata analyzer (`check_metadata`, `src/app.py` lines 53–91) -/

/-- One EXIF entry as the analyzer sees it: the resolved tag name and the
field's text (Python truthiness of the value is modelled by
non-emptiness of the string). -/
structure ExifField where
  tag : String
  value : String
deriving DecidableEq, Repr

/-- Substring test on character lists (Python's `in` on strings). -/
def strContains (sub : List Char) : List Char → Bool
  | [] => sub.isEmpty
  | c :: rest => sub.isPrefixOf (c :: rest) || strContains sub rest

/-- The editor substrings scanned for in `check_metadata`. -/
def editorSubstrings : List String := ["photoshop", "gimp", "paint", "editor"]

/-- The per-field deduction test of `check_metadata` (lines 83–86): the
field's tag resolves to `Software`, its value is truthy, and the value's
lowercase text contains one of the editor substrings. -/
def isEditingSoftwareField (f : ExifField) : Bool :=
  f.tag == "Software" && f.value != "" &&
    editorSubstrings.any (fun e => strContains e.data (lowerStr f.value).data)

/-- The input to `check_metadata` (lines 58–70): a pixel-only array (whose
conversion to PIL strips all EXIF), a metadata-capable image carrying its
EXIF fields, or the failure path (an unsupported input type or an
exception inside the `try` block). -/
inductive MetadataSource : Type where
  | pixelOnly : MetadataSource
  | pil (exif : List ExifField) : MetadataSource
  | failure : MetadataSource
deriving DecidableEq, Repr

/-- `check_metadata` from `src/app.py` (lines 53–91): 70 on the failure
path, 60 when the EXIF dictionary is empty (which is always the case for
the pixel-array fallback), otherwise 100 minus 25 per editing-software
field, floored at 50. -/
def check_metadata : MetadataSource → ℤ
  | .failure => 70
  | .pixelOnly => 60
  | .pil exif =>
      if exif.isEmpty then 60
      else max 50 (100 - 25 * ((exif.filter (fun f => isEditingSoftwareField f)).length : ℤ))

/-! ### Edge/shadow analyzer (`analyze_shadows`, `src/app.py` lines 93–116)

The grayscale image is a pixel matrix; Canny edge detection and contour
extraction are opaque backend functions, constrained only by the library
fact the specification relies on: a uniform image has zero gradient, hence
an all-zero edge map, hence no edge pixels and no contours. -/

/-- A grayscale image: rows of byte intensities. -/
abbrev GrayImage : Type := List (List ℕ)

/-- All pixels of the image carry the same intensity. -/
def Uniform (g : GrayImage) : Prop :=
  ∀ v ∈ g.flatten, ∀ w ∈ g.flatten, v = w

instance (g : GrayImage) : Decidable (Uniform g) := by
  unfold Uniform; infer_instance

/-- `edges.shape[0] * edges.shape[1]`: total pixel count of the (rectangular)
edge map, which has the image's shape. -/
def totalPixels (g : GrayImage) : ℕ := g.length * (g.headD []).length

/-- The OpenCV edge pipeline used by `analyze_shadows`:
`cv2.Canny(gray, 50, 150)` followed by
`cv2.findContours(edges, cv2.RETR_EXTERNAL, cv2.CHAIN_APPROX_SIMPLE)`,
abstracted to the two quantities the scoring logic reads, together with
the library fact that a uniform image yields no edges and no contours. -/
structure EdgeBackend : Type where
  edgeCount : GrayImage → ℕ
  contourCount : GrayImage → ℕ
  uniform_flat : ∀ g : GrayImage, Uniform g → edgeCount g = 0 ∧ contourCount g = 0

/-- `np.sum(edges > 0) / (edges.shape[0] * edges.shape[1])`. -/
def edgeDensity (cv : EdgeBackend) (g : GrayImage) : ℚ :=
  (cv.edgeCount g : ℚ) / (totalPixels g : ℚ)

/-- The shadow score before the `max(50, ...)` floor (lines 106–111):
start at 80 and deduct 20 when the edge density is outside `[0.01, 0.5]`. -/
def shadowRawScore (cv : EdgeBackend) (g : GrayImage) : ℤ :=
  80 - (if edgeDensity cv g < 1/100 ∨ 1/2 < edgeDensity cv g then 20 else 0)

/-- `analyze_shadows` from `src/app.py` (lines 93–116): 70 on the exception
path (`none`), 55 when fewer than 3 contours are found, otherwise the raw
score floored at 50. -/
def analyze_shadows (cv : EdgeBackend) : Option GrayImage → ℤ
  | none => 70
  | some g =>
      if cv.contourCount g < 3 then 55
      else max 50 (shadowRawScore cv g)

/-- `analyze_shadows` with the `max(50, ...)` guard removed, used to state
that the guard never changes the outcome. -/
def analyze_shadows_nofloor (cv : EdgeBackend) : Option GrayImage → ℤ
  | none => 70
  | some g =>
      if cv.contourCount g < 3 then 55
      else shadowRawScore cv g

/-- A degenerate edge backend that finds no edges and no contours on any
image. -/
def trivialCV : EdgeBackend where
  edgeCount _ := 0
  contourCount _ := 0
  uniform_flat _ _ := ⟨rfl, rfl⟩

/-- An edge backend that reports 2 edge pixels and 3 contours on one
specific chequered 2×2 image and nothing elsewhere. -/
def edgyCV : EdgeBackend where
  edgeCount g := if g = [[0, 255], [255, 0]] then 2 else 0
  contourCount g := if g = [[0, 255], [255, 0]] then 3 else 0
  uniform_flat g hu := by
    constructor <;> simp only <;> split_ifs with hg <;>
      first
        | rfl
        | (subst hg; exact absurd hu (by decide))

/-- C6: with a successful quality-90 recompression the ELA score equals
`clamp(100 − extremum/2.55, 0, 100)`, where the extremum is the maximum
per-channel per-pixel difference after 10× brightness amplification
between the image and its recompression; on any internal failure the
analyzer returns exactly 50. -/
theorem ela_score_spec (img : RGBImage)
    (recompressQ90 : RGBImage → Option RGBImage) :
    (∀ recompressed, recompressQ90 img = some recompressed →
      perform_ela_analysis img recompressQ90 =
        max 0 (min 100 (100 -
          (extremumOf (enhance10 (diffImage img recompressed)) : ℚ) / (255/100)))) ∧
    (recompressQ90 img = none → perform_ela_analysis img recompressQ90 = 50) := by
  constructor
  · intro recompressed h
    simp only [perform_ela_analysis, h]
    norm_num
  · intro h
    simp only [perform_ela_analysis, h]

/-- Witness for C6: the identity codec (recompression returns the image
unchanged) on a one-pixel image. -/
theorem ela_score_spec_witness :
    perform_ela_analysis [(10, 20, 30)] some =
      max 0 (min 100 (100 -
        (extremumOf (enhance10 (diffImage [(10, 20, 30)] [(10, 20, 30)])) : ℚ) /
          (255/100))) :=
  (ela_score_spec [(10, 20, 30)] some).1 [(10, 20, 30)] rfl

/-- C7: an issue type whose lowercasing is outside the known set behaves
exactly like `other` through the whole pipeline (multiplier 1, base
severity 40), and for a known type any casing variant yields the same
multiplier, base severity, and pipeline results as the type itself. -/
theorem issue_type_normalization (issue_type : String) :
    (lowerStr issue_type ∉ knownIssueTypes →
      issue_weights (lowerStr issue_type) = 1 ∧
      severity_map (lowerStr issue_type) = 40 ∧
      (∀ ela metadata shadow quality : ℚ,
        calculate_trust_score ela metadata shadow quality issue_type =
          calculate_trust_score ela metadata shadow quality "other") ∧
      (∀ t : ℚ, calculate_severity_and_priority t issue_type =
          calculate_severity_and_priority t "other")) ∧
    (∀ name ∈ knownIssueTypes, lowerStr issue_type = name →
      issue_weights (lowerStr issue_type) = issue_weights name ∧
      severity_map (lowerStr issue_type) = severity_map name ∧
      (∀ ela metadata shadow quality : ℚ,
        calculate_trust_score ela metadata shadow quality issue_type =
          calculate_trust_score ela metadata shadow quality name) ∧
      (∀ t : ℚ, calculate_severity_and_priority t issue_type =
          calculate_severity_and_priority t name)) := by
  constructor
  · intro h
    simp only [knownIssueTypes, List.mem_cons, List.mem_singleton, not_or] at h
    obtain ⟨h1, h2, h3, h4, h5, h6, h7⟩ := h
    have hw : issue_weights (lowerStr issue_type) = 1 := by
      simp [issue_weights, h1, h2, h3, h4, h5, h6, h7]
    have hs : severity_map (lowerStr issue_type) = 40 := by
      simp [severity_map, h1, h2, h3, h4, h5, h6, h7]
    refine ⟨hw, hs, ?_, ?_⟩
    · intro ela metadata shadow quality
      simp only [calculate_trust_score]
      rw [show issue_weights (lowerStr issue_type) = issue_weights (lowerStr "other")
        from by rw [hw]; decide]
    · intro t
      simp only [calculate_severity_and_priority]
      rw [show severity_map (lowerStr issue_type) = severity_map (lowerStr "other")
        from by rw [hs]; decide]
  · intro name hmem heq
    have hname : lowerStr name = name := by
      simp only [knownIssueTypes, List.mem_cons, List.not_mem_nil, or_false] at hmem
      rcases hmem with rfl | rfl | rfl | rfl | rfl | rfl | rfl <;> decide
    refine ⟨by rw [heq], by rw [heq], ?_, ?_⟩
    · intro ela metadata shadow quality
      simp only [calculate_trust_score]
      rw [heq, hname]
    · intro t
      simp only [calculate_severity_and_priority]
      rw [heq, hname]

/-- Witness for C7: an unknown issue type collapses to `other`, and a cased
variant of `fire` matches `fire`. -/
theorem issue_type_normalization_witness :
    issue_weights (lowerStr "graffiti-art") = 1 ∧
    calculate_severity_and_priority 50 "graffiti-art" =
      calculate_severity_and_priority 50 "other" ∧
    calculate_severity_and_priority 50 "FiRe" =
      calculate_severity_and_priority 50 "fire" :=
  ⟨((issue_type_normalization "graffiti-art").1 (by decide)).1,
   ((issue_type_normalization "graffiti-art").1 (by decide)).2.2.2 50,
   ((issue_type_normalization "FiRe").2 "fire" (by decide) (by decide)).2.2.2 50⟩

/-- C8: the metadata score is 60 when the EXIF dictionary is empty (also on
the pixel-only fallback, whose conversion strips EXIF); otherwise it is
100 minus 25 per editing-software field, floored at 50; the failure path
returns exactly 70. -/
theorem metadata_score_spec (exif : List ExifField) :
    check_metadata .failure = 70 ∧
    check_metadata .pixelOnly = 60 ∧
    check_metadata (.pil []) = 60 ∧
    (exif ≠ [] → check_metadata (.pil exif) =
      max 50 (100 -
        25 * ((exif.filter (fun f => isEditingSoftwareField f)).length : ℤ))) := by
  refine ⟨rfl, rfl, rfl, fun h => ?_⟩
  cases exif with
  | nil => exact absurd rfl h
  | cons a l => rfl

/-- Witness for C8 on a one-field EXIF table naming an image editor. -/
theorem metadata_score_spec_witness :
    check_metadata (.pil [⟨"Software", "Adobe Photoshop 2024"⟩]) =
      max 50 (100 -
        25 * ((([⟨"Software", "Adobe Photoshop 2024"⟩] : List ExifField).filter
          (fun f => isEditingSoftwareField f)).length : ℤ)) ∧
    check_metadata (.pil [⟨"Software", "Adobe Photoshop 2024"⟩]) = 75 :=
  ⟨(metadata_score_spec [⟨"Software", "Adobe Photoshop 2024"⟩]).2.2.2 (by decide),
   by decide⟩

/-- C9: fewer than 3 contours (in particular, any uniform image) yields a
shadow score of exactly 55; with at least 3 contours the score is 80 minus
20 when the edge density leaves `[0.01, 0.5]`, floored at 50; the failure
path returns exactly 70. -/
theorem shadow_score_spec (cv : EdgeBackend) (g : GrayImage) :
    (Uniform g → analyze_shadows cv (some g) = 55) ∧
    (cv.contourCount g < 3 → analyze_shadows cv (some g) = 55) ∧
    (3 ≤ cv.contourCount g → analyze_shadows cv (some g) =
      max 50 (80 -
        (if edgeDensity cv g < 1/100 ∨ 1/2 < edgeDensity cv g then 20 else 0))) ∧
    analyze_shadows cv none = 70 := by
  refine ⟨?_, ?_, ?_, rfl⟩
  · intro hu
    have hc := (cv.uniform_flat g hu).2
    simp [analyze_shadows, hc]
  · intro h
    simp [analyze_shadows, h]
  · intro h
    simp only [analyze_shadows, shadowRawScore]
    rw [if_neg (by omega)]

/-- Witness for C9: a uniform 2×2 image under the no-edge backend. -/
theorem shadow_score_spec_witness :
    analyze_shadows trivialCV (some [[7, 7], [7, 7]]) = 55 :=
  (shadow_score_spec trivialCV [[7, 7], [7, 7]]).1 (by decide)

/-- C10: the shadow score is always one of 55, 60, 70, 80 (55 below 3
contours, 60 when the density leaves the range, 80 otherwise, 70 on
failure), hence always at least 55, and the `max(50, ...)` guard never
changes the outcome. -/
theorem shadow_score_invariant (cv : EdgeBackend) (o : Option GrayImage) :
    analyze_shadows cv o ∈ ({55, 60, 70, 80} : Set ℤ) ∧
    55 ≤ analyze_shadows cv o ∧
    analyze_shadows cv o = analyze_shadows_nofloor cv o ∧
    (∀ g, o = some g → cv.contourCount g < 3 → analyze_shadows cv o = 55) ∧
    (∀ g, o = some g → 3 ≤ cv.contourCount g →
      ((edgeDensity cv g < 1/100 ∨ 1/2 < edgeDensity cv g) →
          analyze_shadows cv o = 60) ∧
      (¬(edgeDensity cv g < 1/100 ∨ 1/2 < edgeDensity cv g) →
          analyze_shadows cv o = 80)) ∧
    (o = none → analyze_shadows cv o = 70) := by
  cases o with
  | none =>
      refine ⟨?_, ?_, rfl, ?_, ?_, fun _ => rfl⟩
      · simp [analyze_shadows]
      · simp [analyze_shadows]
      · intro g hg; exact absurd hg (by simp)
      · intro g hg; exact absurd hg (by simp)
  | some g =>
      have hraw : shadowRawScore cv g = 60 ∨ shadowRawScore cv g = 80 := by
        unfold shadowRawScore
        split_ifs <;> norm_num
      by_cases h3 : cv.contourCount g < 3
      · refine ⟨?_, ?_, ?_, fun g' hg' _ => ?_, fun g' hg' h3' => ?_, fun hn => by cases hn⟩
        · simp [analyze_shadows, h3]
        · simp [analyze_shadows, h3]
        · simp [analyze_shadows, analyze_shadows_nofloor, h3]
        · injection hg' with hgg
          subst hgg
          simp [analyze_shadows, h3]
        · injection hg' with hgg
          subst hgg
          omega
      · have hfloor : max 50 (shadowRawScore cv g) = shadowRawScore cv g := by
          rcases hraw with h | h <;> rw [h] <;> rfl
        have hval : analyze_shadows cv (some g) = shadowRawScore cv g := by
          simp [analyze_shadows, h3, hfloor]
        refine ⟨?_, ?_, ?_, fun g' hg' hlt => ?_, fun g' hg' _ => ⟨fun hd => ?_, fun hd => ?_⟩,
          fun hn => by cases hn⟩
        · rw [hval]; rcases hraw with h | h <;> simp [h]
        · rw [hval]; rcases hraw with h | h <;> omega
        · simp [analyze_shadows, analyze_shadows_nofloor, h3, hfloor]
        · injection hg' with hgg
          subst hgg
          omega
        · injection hg' with hgg
          subst hgg
          rw [hval]
          unfold shadowRawScore
          rw [if_pos hd]
          norm_num
        · injection hg' with hgg
          subst hgg
          rw [hval]
          unfold shadowRawScore
          rw [if_neg hd]
          norm_num

/-- Witness for C10: the chequered image seen by `edgyCV` has 3 contours
and in-range density, giving 80; a one-pixel image has no contours,
giving 55. -/
theorem shadow_score_invariant_witness :
    analyze_shadows edgyCV (some [[9]]) = 55 ∧
    analyze_shadows edgyCV (some [[0, 255], [255, 0]]) = 80 :=
  ⟨(shadow_score_invariant edgyCV (some [[9]])).2.2.2.1 [[9]] rfl (by decide),
   ((shadow_score_invariant edgyCV (some [[0, 255], [255, 0]])).2.2.2.2.1
      [[0, 255], [255, 0]] rfl (by decide)).2
    (by norm_num [edgeDensity, edgyCV, totalPixels])⟩

end CivicEye
